import Mathlib

/-!
# Flappy bird: a shallow embedding of `script.js`

The simulation part of `script.js` (configuration, game state, bird, pipes,
particles, and the functions that update them) is embedded as pure functions
on an explicit `Game` record that collects the script's global variables.
JavaScript numbers are modelled as rationals (`ℚ`); the score counters and the
frame counter, which only ever hold integers, are `Nat` and `Int`.  DOM
updates, `localStorage` writes, `playSound` and `render` do not touch the
simulated variables and are left out.  Each call of `Math.random()` is an
explicit argument.
-/

namespace FlappyBird

/-! ## Data model -/

/-- The object `GAME_CONFIG`. -/
structure Config where
  CANVAS_WIDTH : ℚ
  CANVAS_HEIGHT : ℚ
  BIRD_SIZE : ℚ
  BIRD_X : ℚ
  GRAVITY : ℚ
  FLAP_STRENGTH : ℚ
  PIPE_WIDTH : ℚ
  PIPE_GAP : ℚ
  PIPE_SPEED : ℚ
  PIPE_SPAWN_RATE : Int
  deriving DecidableEq, Repr

/-- The three values of the variable `gameState`. -/
inductive GameState where
  | Start
  | Playing
  | GameOver
  deriving DecidableEq, Repr

/-- The object `bird`. -/
structure Bird where
  x : ℚ
  y : ℚ
  velocity : ℚ
  size : ℚ
  deriving DecidableEq, Repr

/-- An element of the array `pipes`. -/
structure Pipe where
  x : ℚ
  topHeight : ℚ
  bottomY : ℚ
  scored : Bool
  deriving DecidableEq, Repr

/-- An element of the array `particles`. -/
structure Particle where
  x : ℚ
  y : ℚ
  vx : ℚ
  vy : ℚ
  life : ℚ
  maxLife : ℚ
  deriving DecidableEq, Repr

/-- The global variables of the script. -/
structure Game where
  cfg : Config
  gameState : GameState
  score : Nat
  bestScore : Nat
  frameCount : Int
  bird : Bird
  pipes : List Pipe
  particles : List Particle
  deriving DecidableEq, Repr

/-- The initial value of `GAME_CONFIG`, which is also what the desktop branch of
`resizeCanvas` writes. -/
def desktopConfig : Config :=
  { CANVAS_WIDTH := 800, CANVAS_HEIGHT := 400, BIRD_SIZE := 20, BIRD_X := 100,
    GRAVITY := 1/4, FLAP_STRENGTH := -6, PIPE_WIDTH := 60, PIPE_GAP := 140,
    PIPE_SPEED := 3/2, PIPE_SPAWN_RATE := 150 }

/-- The configuration after the narrow branch of `resizeCanvas`, started from
`cfg`, for a viewport of `w` by `h` pixels. -/
def narrowConfig (cfg : Config) (w h : Nat) : Config :=
  { cfg with CANVAS_WIDTH := w, CANVAS_HEIGHT := h, GRAVITY := 1/5,
             FLAP_STRENGTH := -5, PIPE_GAP := 160, PIPE_SPEED := 6/5 }

/-- The function `resizeCanvas`; `w` and `h` are `window.innerWidth` and
`window.innerHeight`. -/
def resizeCanvas (w h : Nat) (g : Game) : Game :=
  let cfg :=
    if w ≤ 480 then narrowConfig g.cfg w h
    else { g.cfg with CANVAS_WIDTH := 800, CANVAS_HEIGHT := 400, GRAVITY := 1/4,
                      FLAP_STRENGTH := -6, PIPE_GAP := 140, PIPE_SPEED := 3/2 }
  { g with cfg := cfg, bird := { g.bird with y := cfg.CANVAS_HEIGHT / 2, velocity := 0 } }

/-- The function `startGame`. -/
def startGame (g : Game) : Game :=
  { g with gameState := .Playing, score := 0, frameCount := -60, pipes := [],
           particles := [],
           bird := { g.bird with y := g.cfg.CANVAS_HEIGHT / 2, velocity := 0 } }

/-- The particle pushed by one iteration of the loop of `flap`; `r1` and `r2` are
the two `Math.random()` draws of that iteration. -/
def flapParticle (b : Bird) (r1 r2 : ℚ) : Particle :=
  { x := b.x + b.size / 2, y := b.y + b.size / 2, vx := (r1 - 1/2) * 4,
    vy := r2 * 3 + 1, life := 25, maxLife := 25 }

/-- The function `flap`; `rnd i` holds the two random draws of iteration `i`. -/
def flap (rnd : Nat → ℚ × ℚ) (g : Game) : Game :=
  let b := { g.bird with velocity := g.cfg.FLAP_STRENGTH }
  { g with bird := b,
           particles := g.particles ++
             (List.range 5).map (fun i => flapParticle b (rnd i).1 (rnd i).2) }

/-- The function `restartGame`. -/
def restartGame (g : Game) : Game :=
  { g with gameState := .Start }

/-- The function `gameOver`. -/
def gameOver (g : Game) : Game :=
  { g with gameState := .GameOver,
           bestScore := if g.score > g.bestScore then g.score else g.bestScore }

/-- The function `handleInput`. -/
def handleInput (rnd : Nat → ℚ × ℚ) (g : Game) : Game :=
  if g.gameState = .Start then startGame g
  else if g.gameState = .Playing then flap rnd g
  else g

/-- The function `updateBird`. -/
def updateBird (g : Game) : Game :=
  if g.gameState ≠ .Playing then g
  else
    let v1 := g.bird.velocity + g.cfg.GRAVITY
    let v2 := if v1 > 5 then 5 else v1
    let v3 := if v2 < -6 then -6 else v2
    let y1 := g.bird.y + v3
    let g1 := { g with bird := { g.bird with velocity := v3, y := y1 } }
    let groundY := g.cfg.CANVAS_HEIGHT - 30
    let g2 :=
      if g1.bird.y + g1.bird.size ≥ groundY then
        gameOver { g1 with bird := { g1.bird with y := groundY - g1.bird.size, velocity := 0 } }
      else g1
    if g2.bird.y ≤ 0 then
      { g2 with bird := { g2.bird with y := 0, velocity := 0 } }
    else g2

/-- The function `checkPipeCollision`, reading the globals `bird` and
`GAME_CONFIG` from `g`. -/
def checkPipeCollision (g : Game) (pipe : Pipe) : Bool :=
  let tolerance : ℚ := 3
  let birdLeft := g.bird.x + tolerance
  let birdRight := g.bird.x + g.bird.size - tolerance
  let birdTop := g.bird.y + tolerance
  let birdBottom := g.bird.y + g.bird.size - tolerance
  let pipeLeft := pipe.x
  let pipeRight := pipe.x + g.cfg.PIPE_WIDTH
  if birdRight > pipeLeft ∧ birdLeft < pipeRight then
    if birdTop < pipe.topHeight - tolerance ∨ birdBottom > pipe.bottomY + tolerance then
      true
    else false
  else false

/-- The pipe pushed by the spawn branch of `updatePipes`; `r` is the
`Math.random()` draw. -/
def spawnPipe (cfg : Config) (r : ℚ) : Pipe :=
  let minGapY : ℚ := 80
  let maxGapY := cfg.CANVAS_HEIGHT - cfg.PIPE_GAP - 80
  let gapY := r * (maxGapY - minGapY) + minGapY
  { x := cfg.CANVAS_WIDTH, topHeight := gapY, bottomY := gapY + cfg.PIPE_GAP, scored := false }

/-- The spawn branch at the head of `updatePipes`.  The remainder is only taken
when `frameCount > 0`, where the JavaScript `%` and `Int.emod` agree. -/
def spawnStep (r : ℚ) (g : Game) : Game :=
  if g.frameCount > 0 ∧ g.frameCount % g.cfg.PIPE_SPAWN_RATE = 0 then
    { g with pipes := g.pipes ++ [spawnPipe g.cfg r] }
  else g

/-- One iteration of the `for` loop of `updatePipes`, at index `i`.  The loop
only visits indices below `pipes.length`; the `none` branch is never taken. -/
def pipeBody (i : Nat) (g : Game) : Game :=
  match g.pipes[i]? with
  | none => g
  | some pipe0 =>
    -- pipe.x -= PIPE_SPEED
    let pipe1 := { pipe0 with x := pipe0.x - g.cfg.PIPE_SPEED }
    -- scoring
    let hit : Bool := !pipe1.scored && decide (pipe1.x + g.cfg.PIPE_WIDTH < g.bird.x)
    let pipe := if hit then { pipe1 with scored := true } else pipe1
    let g1 := { g with pipes := g.pipes.set i pipe, score := if hit then g.score + 1 else g.score }
    -- removal of off-screen pipes
    let g2 :=
      if pipe.x + g1.cfg.PIPE_WIDTH < 0 then { g1 with pipes := g1.pipes.eraseIdx i } else g1
    -- collision
    if checkPipeCollision g2 pipe then gameOver g2 else g2

/-- The `for` loop of `updatePipes`, with `n` iterations left: it visits the
indices `n - 1`, ..., `0` in this order. -/
def pipesLoop : Nat → Game → Game
  | 0, g => g
  | i + 1, g => pipesLoop i (pipeBody i g)

/-- The function `updatePipes`; `r` is the random draw of the spawn branch. -/
def updatePipes (r : ℚ) (g : Game) : Game :=
  if g.gameState ≠ .Playing then g
  else
    let g1 := spawnStep r g
    pipesLoop g1.pipes.length g1

/-- One iteration of the `for` loop of `updateParticles`, at index `i`. -/
def particleBody (i : Nat) (ps : List Particle) : List Particle :=
  match ps[i]? with
  | none => ps
  | some p0 =>
    let p := { p0 with x := p0.x + p0.vx, y := p0.y + p0.vy, life := p0.life - 1 }
    let ps1 := ps.set i p
    if p.life ≤ 0 then ps1.eraseIdx i else ps1

/-- The `for` loop of `updateParticles`, with `n` iterations left. -/
def particlesLoop : Nat → List Particle → List Particle
  | 0, ps => ps
  | i + 1, ps => particlesLoop i (particleBody i ps)

/-- The function `updateParticles`. -/
def updateParticles (g : Game) : Game :=
  { g with particles := particlesLoop g.particles.length g.particles }

/-- The body of `gameLoop` without `render`: one tick of the simulation. -/
def tick (r : ℚ) (g : Game) : Game :=
  updateParticles (updatePipes r (updateBird { g with frameCount := g.frameCount + 1 }))

/-- The state after `n` ticks without input; `rs k` is the random draw of the
`k`-th of them. -/
def ticks (rs : Nat → ℚ) : Nat → Game → Game
  | 0, g => g
  | n + 1, g => tick (rs n) (ticks rs n g)

/-- The state of the script when it is loaded, before `init`. -/
def initialGame (bestScore : Nat) : Game :=
  { cfg := desktopConfig, gameState := .Start, score := 0, bestScore := bestScore,
    frameCount := 0,
    bird := { x := desktopConfig.BIRD_X, y := desktopConfig.CANVAS_HEIGHT / 2, velocity := 0,
              size := desktopConfig.BIRD_SIZE },
    pipes := [], particles := [] }

/-! ## Loop summaries

The two `for` loops run from the last index down and splice while they iterate.
The definitions below describe what one iteration does to the element it
visits, without indices; the lemmas of the next section show that the index
loops compute exactly these. -/

/-- The particle object after the body of the loop of `updateParticles`. -/
def advanceParticle (p : Particle) : Particle :=
  { p with x := p.x + p.vx, y := p.y + p.vy, life := p.life - 1 }

/-- The pipe object after the move and scoring statements of the loop body of
`updatePipes`. -/
def movePipe (cfg : Config) (b : Bird) (p : Pipe) : Pipe :=
  { p with x := p.x - cfg.PIPE_SPEED,
           scored := p.scored || decide (p.x - cfg.PIPE_SPEED + cfg.PIPE_WIDTH < b.x) }

/-- The scoring branch of the loop body of `updatePipes` is taken for `p`. -/
def scoresNow (cfg : Config) (b : Bird) (p : Pipe) : Bool :=
  !p.scored && decide (p.x - cfg.PIPE_SPEED + cfg.PIPE_WIDTH < b.x)

/-- The pipe, after its move, is not spliced out of the list. -/
def onScreen (cfg : Config) (p : Pipe) : Bool :=
  !decide (p.x + cfg.PIPE_WIDTH < 0)

/-- The test of `checkPipeCollision` as a function of the two globals it reads. -/
def collides (cfg : Config) (b : Bird) (pipe : Pipe) : Bool :=
  decide ((b.x + b.size - 3 > pipe.x ∧ b.x + 3 < pipe.x + cfg.PIPE_WIDTH) ∧
    (b.y + 3 < pipe.topHeight - 3 ∨ b.y + b.size - 3 > pipe.bottomY + 3))

/-- The effect of one loop iteration of `updatePipes` on the game, for the pipe
`p0` it visits, where `g.pipes` holds the pipes that follow `p0` in the list. -/
def pipeIter (p0 : Pipe) (g : Game) : Game :=
  let pipe := movePipe g.cfg g.bird p0
  let g1 := { g with score := if scoresNow g.cfg g.bird p0 then g.score + 1 else g.score,
                     pipes := if onScreen g.cfg pipe then pipe :: g.pipes else g.pipes }
  if checkPipeCollision g1 pipe then gameOver g1 else g1

/-- The state after `n` ticks of one pipe object that stays in the list, when
tick `k` runs in configuration `(env k).1` with bird `(env k).2`. -/
def pipeAfter (env : Nat → Config × Bird) (p : Pipe) : Nat → Pipe
  | 0 => p
  | n + 1 => movePipe (env n).1 (env n).2 (pipeAfter env p n)

/-- In tick `k` the moved pipe has its trailing edge left of the bird:
`pipe.x + PIPE_WIDTH < bird.x`. -/
def passedAt (env : Nat → Config × Bird) (p : Pipe) (k : Nat) : Prop :=
  (pipeAfter env p (k + 1)).x + (env k).1.PIPE_WIDTH < (env k).2.x

instance (env : Nat → Config × Bird) (p : Pipe) (k : Nat) : Decidable (passedAt env p k) := by
  unfold passedAt
  infer_instance

/-- In tick `k` the pipe's `scored` flag changes from false to true. -/
def flipsAt (env : Nat → Config × Bird) (p : Pipe) (k : Nat) : Prop :=
  (pipeAfter env p k).scored = false ∧ (pipeAfter env p (k + 1)).scored = true

instance (env : Nat → Config × Bird) (p : Pipe) (k : Nat) : Decidable (flipsAt env p k) := by
  unfold flipsAt
  infer_instance

/-- What can happen between two frames. -/
inductive Event where
  | frame (r : ℚ)
  | input (rnd : Nat → ℚ × ℚ)
  | resize (w h : Nat)
  | restart

/-- The handler of one event. -/
def step (g : Game) : Event → Game
  | .frame r => tick r g
  | .input rnd => handleInput rnd g
  | .resize w h => resizeCanvas w h g
  | .restart => restartGame g

/-- The state after a sequence of events. -/
def run (evs : List Event) (g : Game) : Game :=
  evs.foldl step g

/-- The number of frames in a sequence of events. -/
def frames : List Event → Nat
  | [] => 0
  | .frame _ :: evs => frames evs + 1
  | _ :: evs => frames evs

/-! ## Example states -/

/-- A running game in the desktop configuration with the bird at mid height and
the given pipes. -/
def playingWith (pipes : List Pipe) : Game :=
  { startGame (initialGame 0) with pipes := pipes }

/-- A pipe whose top segment reaches down to 300 and so covers a bird at mid
height. -/
def lowPipe (x : ℚ) : Pipe :=
  { x := x, topHeight := 300, bottomY := 440, scored := false }

/-- A pipe whose gap contains a bird at mid height. -/
def openPipe (x : ℚ) : Pipe :=
  { x := x, topHeight := 100, bottomY := 300, scored := false }

/-- The environment of a run in the desktop configuration: every tick sees the
desktop constants and a bird at `x = 100`. -/
def desktopEnv : Nat → Config × Bird :=
  fun _ => (desktopConfig, (initialGame 0).bird)

/-- The game `s` with another stored best score and another bird abscissa: the
two variables a run without pipes never reads. -/
def withBestAndX (b : Nat) (x : ℚ) (s : Game) : Game :=
  { s with bestScore := b, bird := { s.bird with x := x } }

/-- A run freshly started in the desktop configuration. -/
def freshRun : Game :=
  startGame (initialGame 0)

/-! ## The particle pass as the specification words it -/

/-- The particles with life greater than 1, in their order, each with `x`
advanced by `vx`, `y` advanced by `vy` and `life` decreased by 1. -/
def updateParticlesSpec (ps : List Particle) : List Particle :=
  (ps.filter (fun p => decide (p.life > 1))).map
    (fun p => { p with x := p.x + p.vx, y := p.y + p.vy, life := p.life - 1 })

/-! ## List lemmas for the splice loops -/

theorem getElem?_length_append {α : Type} (l : List α) (a : α) (s : List α) :
    (l ++ a :: s)[l.length]? = some a := by
  induction l with
  | nil => simp
  | cons b l ih => simpa using ih

theorem set_length_append {α : Type} (l : List α) (a b : α) (s : List α) :
    (l ++ a :: s).set l.length b = l ++ b :: s := by
  induction l with
  | nil => rfl
  | cons c l ih => simp

theorem eraseIdx_length_append {α : Type} (l : List α) (a : α) (s : List α) :
    (l ++ a :: s).eraseIdx l.length = l ++ s := by
  induction l with
  | nil => rfl
  | cons c l ih => simpa using ih

/-! ## The particle loop -/

theorem particleBody_append (l : List Particle) (a : Particle) (s : List Particle) :
    particleBody l.length (l ++ a :: s) =
      l ++ (if (advanceParticle a).life ≤ 0 then s else advanceParticle a :: s) := by
  unfold particleBody
  rw [getElem?_length_append]
  simp only [set_length_append, eraseIdx_length_append]
  show (if a.life - 1 ≤ 0 then l ++ s else l ++ advanceParticle a :: s) = _
  by_cases h : a.life - 1 ≤ 0
  · rw [if_pos h, if_pos (show (advanceParticle a).life ≤ 0 from h)]
  · rw [if_neg h, if_neg (show ¬ (advanceParticle a).life ≤ 0 from h)]

theorem particlesLoop_append (pre : List Particle) :
    ∀ suf : List Particle, particlesLoop pre.length (pre ++ suf) =
      (pre.map advanceParticle).filter (fun p => decide (¬ p.life ≤ 0)) ++ suf := by
  induction pre using List.reverseRecOn with
  | nil => intro suf; rfl
  | append_singleton l a ih =>
    intro suf
    rw [List.length_append, List.length_singleton, particlesLoop, List.append_assoc,
      List.singleton_append, particleBody_append]
    split_ifs with h
    · rw [ih]; simp [List.filter_append, h]
    · rw [ih]; simp [List.filter_append, List.filter_cons, not_le.mp h]

theorem updateParticles_particles (g : Game) :
    (updateParticles g).particles =
      (g.particles.map advanceParticle).filter (fun p => decide (¬ p.life ≤ 0)) := by
  have h := particlesLoop_append g.particles []
  simpa [updateParticles] using h

/-! ## The pipe loop -/

theorem checkPipeCollision_eq (g : Game) (p : Pipe) :
    checkPipeCollision g p = collides g.cfg g.bird p := by
  unfold checkPipeCollision collides
  by_cases h1 : g.bird.x + g.bird.size - 3 > p.x ∧ g.bird.x + 3 < p.x + g.cfg.PIPE_WIDTH <;>
  by_cases h2 : g.bird.y + 3 < p.topHeight - 3 ∨ g.bird.y + g.bird.size - 3 > p.bottomY + 3 <;>
  simp only [h1, h2, if_true, if_false, and_self, and_true, and_false, decide_True, decide_False]

theorem pipeBody_append (g : Game) (l : List Pipe) (a : Pipe) (s : List Pipe) :
    pipeBody l.length { g with pipes := l ++ a :: s } =
      { pipeIter a { g with pipes := s } with
        pipes := l ++ (pipeIter a { g with pipes := s }).pipes } := by
  unfold pipeBody
  simp only [getElem?_length_append, set_length_append]
  unfold pipeIter movePipe scoresNow onScreen
  simp only [checkPipeCollision_eq]
  rcases a with ⟨ax, at_, ab, asc⟩
  by_cases h1 : ax - g.cfg.PIPE_SPEED + g.cfg.PIPE_WIDTH < g.bird.x <;>
  by_cases h2 : ax - g.cfg.PIPE_SPEED + g.cfg.PIPE_WIDTH < 0 <;>
  cases asc <;>
  simp only [h1, h2, decide_True, decide_False, Bool.not_true, Bool.not_false, Bool.and_true,
    Bool.and_false, Bool.or_true, Bool.or_false, Bool.false_eq_true, if_true, if_false,
    eraseIdx_length_append, Bool.true_and, Bool.false_and] <;>
  split_ifs <;> rfl

theorem pipesLoop_append (pre : List Pipe) :
    ∀ (g : Game) (suf : List Pipe), pipesLoop pre.length { g with pipes := pre ++ suf } =
      pre.foldr pipeIter { g with pipes := suf } := by
  induction pre using List.reverseRecOn with
  | nil => intro g suf; rfl
  | append_singleton l a ih =>
    intro g suf
    rw [List.length_append, List.length_singleton, pipesLoop, List.append_assoc,
      List.singleton_append, pipeBody_append, List.foldr_append]
    exact ih (pipeIter a { g with pipes := suf }) (pipeIter a { g with pipes := suf }).pipes

theorem updatePipes_eq_foldr (r : ℚ) (g : Game) (h : g.gameState = .Playing) :
    updatePipes r g =
      (spawnStep r g).pipes.foldr pipeIter { spawnStep r g with pipes := [] } := by
  unfold updatePipes
  rw [if_neg (by simp [h])]
  have := pipesLoop_append (spawnStep r g).pipes (spawnStep r g) []
  simpa using this

theorem pipeIter_frame (p : Pipe) (g : Game) :
    (pipeIter p g).cfg = g.cfg ∧ (pipeIter p g).bird = g.bird ∧
    (pipeIter p g).frameCount = g.frameCount ∧ (pipeIter p g).particles = g.particles := by
  unfold pipeIter gameOver
  simp only [checkPipeCollision_eq]
  split_ifs <;> exact ⟨rfl, rfl, rfl, rfl⟩

theorem foldr_pipeIter_frame (l : List Pipe) (g : Game) :
    (l.foldr pipeIter g).cfg = g.cfg ∧ (l.foldr pipeIter g).bird = g.bird ∧
    (l.foldr pipeIter g).frameCount = g.frameCount ∧
    (l.foldr pipeIter g).particles = g.particles := by
  induction l with
  | nil => exact ⟨rfl, rfl, rfl, rfl⟩
  | cons a l ih =>
    obtain ⟨h1, h2, h3, h4⟩ := pipeIter_frame a (l.foldr pipeIter g)
    rw [List.foldr_cons, h1, h2, h3, h4]
    exact ih

theorem pipeIter_pipes (p : Pipe) (g : Game) :
    (pipeIter p g).pipes =
      if onScreen g.cfg (movePipe g.cfg g.bird p) then movePipe g.cfg g.bird p :: g.pipes
      else g.pipes := by
  unfold pipeIter gameOver
  simp only [checkPipeCollision_eq]
  split_ifs <;> rfl

theorem pipeIter_score (p : Pipe) (g : Game) :
    (pipeIter p g).score = if scoresNow g.cfg g.bird p then g.score + 1 else g.score := by
  unfold pipeIter gameOver
  simp only [checkPipeCollision_eq]
  split_ifs <;> rfl

theorem pipeIter_gameState (p : Pipe) (g : Game) :
    (pipeIter p g).gameState =
      if collides g.cfg g.bird (movePipe g.cfg g.bird p) then .GameOver else g.gameState := by
  unfold pipeIter gameOver
  simp only [checkPipeCollision_eq]
  split_ifs <;> rfl

theorem foldr_pipeIter_pipes (l : List Pipe) (g : Game) :
    (l.foldr pipeIter g).pipes =
      (l.map (movePipe g.cfg g.bird)).filter (onScreen g.cfg) ++ g.pipes := by
  induction l with
  | nil => rfl
  | cons a l ih =>
    obtain ⟨h1, h2, -, -⟩ := foldr_pipeIter_frame l g
    rw [List.foldr_cons, pipeIter_pipes, h1, h2, ih, List.map_cons, List.filter_cons]
    split_ifs <;> rfl

theorem foldr_pipeIter_score (l : List Pipe) (g : Game) :
    (l.foldr pipeIter g).score = g.score + l.countP (scoresNow g.cfg g.bird) := by
  induction l with
  | nil => rfl
  | cons a l ih =>
    obtain ⟨h1, h2, -, -⟩ := foldr_pipeIter_frame l g
    rw [List.foldr_cons, pipeIter_score, h1, h2, ih, List.countP_cons]
    split_ifs <;> omega

theorem foldr_pipeIter_gameState (l : List Pipe) (g : Game) :
    (l.foldr pipeIter g).gameState =
      if l.any (fun p => collides g.cfg g.bird (movePipe g.cfg g.bird p)) then .GameOver
      else g.gameState := by
  induction l with
  | nil => rfl
  | cons a l ih =>
    obtain ⟨h1, h2, -, -⟩ := foldr_pipeIter_frame l g
    rw [List.foldr_cons, pipeIter_gameState, h1, h2, ih, List.any_cons]
    cases collides g.cfg g.bird (movePipe g.cfg g.bird a) <;>
    cases l.any (fun p => collides g.cfg g.bird (movePipe g.cfg g.bird p)) <;> rfl

theorem spawnStep_frame (r : ℚ) (g : Game) :
    (spawnStep r g).cfg = g.cfg ∧ (spawnStep r g).bird = g.bird ∧
    (spawnStep r g).score = g.score ∧ (spawnStep r g).gameState = g.gameState ∧
    (spawnStep r g).bestScore = g.bestScore ∧ (spawnStep r g).frameCount = g.frameCount ∧
    (spawnStep r g).particles = g.particles := by
  unfold spawnStep
  split_ifs <;> exact ⟨rfl, rfl, rfl, rfl, rfl, rfl, rfl⟩

/-! ## The bird's velocity after `updateBird` -/

/-- C1: for every configuration and every bird state, one `updateBird` step
executed while `gameState` is `Playing` leaves the bird's velocity in the closed
interval `[-6, 5]`. -/
theorem updateBird_velocity_bounds (g : Game) (h : g.gameState = .Playing) :
    -6 ≤ (updateBird g).bird.velocity ∧ (updateBird g).bird.velocity ≤ 5 := by
  unfold updateBird gameOver
  simp only [h, ne_eq, not_true_eq_false, if_false]
  split_ifs <;> constructor <;> simp only [] <;> linarith

/-- C1 at a concrete state: a bird falling at velocity 100 in the desktop
configuration. -/
theorem updateBird_velocity_bounds_witness :
    ({ startGame (initialGame 0) with
        bird := { x := 100, y := 200, velocity := 100, size := 20 } } : Game).gameState
      = .Playing ∧
    -6 ≤ (updateBird { startGame (initialGame 0) with
        bird := { x := 100, y := 200, velocity := 100, size := 20 } }).bird.velocity ∧
    (updateBird { startGame (initialGame 0) with
        bird := { x := 100, y := 200, velocity := 100, size := 20 } }).bird.velocity ≤ 5 :=
  ⟨rfl, updateBird_velocity_bounds _ rfl⟩

/-! ## Collision -/

theorem collides_movePipe (cfg : Config) (b : Bird) (p : Pipe) :
    collides cfg b (movePipe cfg b p) = collides cfg b { p with x := p.x - cfg.PIPE_SPEED } :=
  rfl

/-- C2: `checkPipeCollision` returns true exactly when the bird rectangle inset
by the tolerance 3 overlaps the pipe's horizontal span and sticks out of the
gap, above or below, by more than the tolerance; and when `updatePipes` runs in
`Playing`, a pipe of the list for which the test is true after its move sets
`gameState` to `GameOver`. -/
theorem checkPipeCollision_iff_and_gameOver (g : Game) (pipe : Pipe) (r : ℚ) :
    (checkPipeCollision g pipe = true ↔
      (g.bird.x + g.bird.size - 3 > pipe.x ∧ g.bird.x + 3 < pipe.x + g.cfg.PIPE_WIDTH) ∧
      (g.bird.y + 3 < pipe.topHeight - 3 ∨ g.bird.y + g.bird.size - 3 > pipe.bottomY + 3)) ∧
    (g.gameState = .Playing → pipe ∈ (spawnStep r g).pipes →
      checkPipeCollision g { pipe with x := pipe.x - g.cfg.PIPE_SPEED } = true →
      (updatePipes r g).gameState = .GameOver) := by
  refine ⟨?_, ?_⟩
  · rw [checkPipeCollision_eq]
    unfold collides
    exact decide_eq_true_iff
  · intro hplay hmem hcol
    obtain ⟨hc, hb, -, -, -, -, -⟩ := spawnStep_frame r g
    rw [updatePipes_eq_foldr r g hplay, foldr_pipeIter_gameState]
    have hany : (spawnStep r g).pipes.any
        (fun p => collides g.cfg g.bird (movePipe g.cfg g.bird p)) = true := by
      rw [List.any_eq_true]
      refine ⟨pipe, hmem, ?_⟩
      rw [collides_movePipe, ← checkPipeCollision_eq]
      exact hcol
    simp only [hc, hb]
    rw [if_pos hany]

/-- C2 at a concrete state: a pipe at `x = 100` whose top segment covers the
bird ends the run. -/
theorem checkPipeCollision_iff_and_gameOver_witness :
    (playingWith [lowPipe 100]).gameState = .Playing ∧
    lowPipe 100 ∈ (spawnStep 0 (playingWith [lowPipe 100])).pipes ∧
    checkPipeCollision (playingWith [lowPipe 100])
      { lowPipe 100 with
        x := (lowPipe 100).x - (playingWith [lowPipe 100]).cfg.PIPE_SPEED } = true ∧
    (updatePipes 0 (playingWith [lowPipe 100])).gameState = .GameOver :=
  ⟨rfl, by decide!, by decide!,
    (checkPipeCollision_iff_and_gameOver (playingWith [lowPipe 100]) (lowPipe 100) 0).2
      rfl (by decide!) (by decide!)⟩

/-! ## Scoring -/

theorem movePipe_scored_iff (cfg : Config) (b : Bird) (p : Pipe) :
    (movePipe cfg b p).scored = true ↔
      p.scored = true ∨ (movePipe cfg b p).x + cfg.PIPE_WIDTH < b.x := by
  unfold movePipe
  simp only [Bool.or_eq_true, decide_eq_true_eq]

theorem pipeAfter_scored_succ (env : Nat → Config × Bird) (p : Pipe) (n : Nat) :
    (pipeAfter env p (n + 1)).scored = true ↔
      (pipeAfter env p n).scored = true ∨ passedAt env p n := by
  unfold passedAt
  exact movePipe_scored_iff (env n).1 (env n).2 (pipeAfter env p n)

theorem pipeAfter_scored_mono (env : Nat → Config × Bird) (p : Pipe) (m n : Nat) (h : m ≤ n)
    (hm : (pipeAfter env p m).scored = true) : (pipeAfter env p n).scored = true := by
  induction n, h using Nat.le_induction with
  | base => exact hm
  | succ n _ ih => exact (pipeAfter_scored_succ env p n).mpr (Or.inl ih)

theorem pipeAfter_scored_iff (env : Nat → Config × Bird) (p : Pipe) (hp : p.scored = false)
    (n : Nat) : (pipeAfter env p n).scored = true ↔ ∃ k, k < n ∧ passedAt env p k := by
  induction n with
  | zero =>
    constructor
    · intro h
      rw [show pipeAfter env p 0 = p from rfl, hp] at h
      exact absurd h (by decide)
    · rintro ⟨k, hk, -⟩
      exact absurd hk (Nat.not_lt_zero k)
  | succ n ih =>
    rw [pipeAfter_scored_succ, ih]
    constructor
    · rintro (⟨k, hk, hpass⟩ | hpass)
      · exact ⟨k, Nat.lt_succ_of_lt hk, hpass⟩
      · exact ⟨n, Nat.lt_succ_self n, hpass⟩
    · rintro ⟨k, hk, hpass⟩
      rcases Nat.lt_succ_iff_lt_or_eq.mp hk with h | h
      · exact Or.inl ⟨k, h, hpass⟩
      · exact Or.inr (h ▸ hpass)

theorem flipsAt_iff (env : Nat → Config × Bird) (p : Pipe) (hp : p.scored = false) (n : Nat) :
    flipsAt env p n ↔ passedAt env p n ∧ ∀ k, k < n → ¬ passedAt env p k := by
  unfold flipsAt
  rw [pipeAfter_scored_succ, ← Bool.not_eq_true, pipeAfter_scored_iff env p hp n]
  constructor
  · rintro ⟨h1, h2 | h2⟩
    · exact absurd h2 h1
    · exact ⟨h2, fun k hk hpass => h1 ⟨k, hk, hpass⟩⟩
  · rintro ⟨h1, h2⟩
    exact ⟨fun ⟨k, hk, hpass⟩ => h2 k hk hpass, Or.inr h1⟩

theorem flipsAt_unique (env : Nat → Config × Bird) (p : Pipe) (m n : Nat)
    (hm : flipsAt env p m) (hn : flipsAt env p n) : m = n := by
  rcases Nat.lt_trichotomy m n with h | h | h
  · have := pipeAfter_scored_mono env p (m + 1) n h hm.2
    rw [hn.1] at this
    exact absurd this (by decide)
  · exact h
  · have := pipeAfter_scored_mono env p (n + 1) m h hn.2
    rw [hm.1] at this
    exact absurd this (by decide)

theorem updateBird_score_pipes (g : Game) :
    (updateBird g).score = g.score ∧ (updateBird g).pipes = g.pipes := by
  unfold updateBird gameOver
  simp only []
  split_ifs <;> exact ⟨rfl, rfl⟩

/-- C3: a pipe's `scored` flag never goes back from true to false, changes from
false to true in at most one tick, and for a pipe that starts unscored that tick
is the first one in which `pipe.x + PIPE_WIDTH < bird.x` holds after the move;
one run of `updatePipes` in `Playing` moves every pipe by `movePipe`, keeps the
ones still on screen, and adds to `score` exactly the number of pipes whose flag
changed; outside `Playing` it changes nothing, and `updateBird` and
`updateParticles` never touch the score or the pipes. -/
theorem scored_once_and_score (r : ℚ) (g : Game) (env : Nat → Config × Bird) (p : Pipe) :
    (g.gameState = .Playing →
      (updatePipes r g).pipes =
        ((spawnStep r g).pipes.map (movePipe g.cfg g.bird)).filter (onScreen g.cfg) ∧
      (updatePipes r g).score = g.score +
        (spawnStep r g).pipes.countP
          (fun q => !q.scored && (movePipe g.cfg g.bird q).scored)) ∧
    (g.gameState ≠ .Playing → updatePipes r g = g) ∧
    ((updateBird g).score = g.score ∧ (updateBird g).pipes = g.pipes ∧
      (updateParticles g).score = g.score ∧ (updateParticles g).pipes = g.pipes) ∧
    ((movePipe g.cfg g.bird p).x = p.x - g.cfg.PIPE_SPEED ∧
      (movePipe g.cfg g.bird p).topHeight = p.topHeight ∧
      (movePipe g.cfg g.bird p).bottomY = p.bottomY ∧
      ((movePipe g.cfg g.bird p).scored = true ↔
        p.scored = true ∨ p.x - g.cfg.PIPE_SPEED + g.cfg.PIPE_WIDTH < g.bird.x)) ∧
    (∀ n, (pipeAfter env p n).scored = true → (pipeAfter env p (n + 1)).scored = true) ∧
    (∀ m n, flipsAt env p m → flipsAt env p n → m = n) ∧
    (p.scored = false →
      ∀ n, flipsAt env p n ↔ passedAt env p n ∧ ∀ k, k < n → ¬ passedAt env p k) := by
  refine ⟨?_, ?_, ⟨(updateBird_score_pipes g).1, (updateBird_score_pipes g).2, rfl, rfl⟩,
    ⟨rfl, rfl, rfl, movePipe_scored_iff g.cfg g.bird p⟩, ?_, flipsAt_unique env p,
    fun hp n => flipsAt_iff env p hp n⟩
  · intro hplay
    obtain ⟨hc, hb, hs, -, -, -, -⟩ := spawnStep_frame r g
    rw [updatePipes_eq_foldr r g hplay, foldr_pipeIter_pipes, foldr_pipeIter_score]
    simp only [hc, hb, hs, List.append_nil, true_and]
    congr 2
    funext q
    unfold scoresNow movePipe
    cases q.scored <;> simp
  · intro h
    unfold updatePipes
    rw [if_pos h]
  · intro n h
    exact pipeAfter_scored_mono env p n (n + 1) (Nat.le_succ n) h

/-- C3 at concrete inputs: a pipe at `x = 41` is scored by the next run of
`updatePipes`, and a pipe starting at `x = 43` flips its flag in the third tick
(index 2), the first one that leaves its trailing edge left of `bird.x = 100`. -/
theorem scored_once_and_score_witness :
    (playingWith [openPipe 41]).gameState = .Playing ∧
    (openPipe 43).scored = false ∧
    (updatePipes 0 (playingWith [openPipe 41])).score = 1 ∧
    flipsAt desktopEnv (openPipe 43) 2 ∧
    (flipsAt desktopEnv (openPipe 43) 2 ↔
      passedAt desktopEnv (openPipe 43) 2 ∧
        ∀ k, k < 2 → ¬ passedAt desktopEnv (openPipe 43) k) :=
  ⟨rfl, rfl,
    (((scored_once_and_score 0 (playingWith [openPipe 41]) desktopEnv (openPipe 43)).1
      rfl).2).trans (by decide!),
    by decide!,
    (scored_once_and_score 0 (playingWith [openPipe 41]) desktopEnv (openPipe 43)).2.2.2.2.2.2
      rfl 2⟩

/-! ## Best score -/

theorem gameOver_bestScore (g : Game) :
    (gameOver g).bestScore = max g.bestScore g.score ∧ (gameOver g).score = g.score := by
  unfold gameOver
  refine ⟨?_, rfl⟩
  show (if g.score > g.bestScore then g.score else g.bestScore) = max g.bestScore g.score
  split_ifs with h
  · exact (max_eq_right (le_of_lt h)).symm
  · exact (max_eq_left (not_lt.mp h)).symm

/-- C4 fails on the code: with pipes `[openPipe 41, lowPipe 100]` the loop of
`updatePipes` first visits the colliding pipe at index 1, where `gameOver`
records the best score from `score = 0`, and then scores the pipe at index 0;
the tick ends the run with `score = 1` and `bestScore = 0`. -/
theorem bestScore_stale_after_collision :
    (playingWith [openPipe 41, lowPipe 100]).gameState = .Playing ∧
    (playingWith [openPipe 41, lowPipe 100]).bestScore = 0 ∧
    (tick 0 (playingWith [openPipe 41, lowPipe 100])).gameState = .GameOver ∧
    (tick 0 (playingWith [openPipe 41, lowPipe 100])).score = 1 ∧
    (tick 0 (playingWith [openPipe 41, lowPipe 100])).bestScore = 0 ∧
    (tick 0 (playingWith [openPipe 41, lowPipe 100])).bestScore ≠
      max (playingWith [openPipe 41, lowPipe 100]).bestScore
        (tick 0 (playingWith [openPipe 41, lowPipe 100])).score := by
  decide!

/-! ## Spawned pipes -/

theorem resizeCanvas_cfg_profile (w h : Nat) (g : Game)
    (hg : g.cfg = desktopConfig ∨ ∃ w0 h0 : Nat, w0 ≤ 480 ∧ g.cfg = narrowConfig desktopConfig w0 h0) :
    (w ≤ 480 ∧ (resizeCanvas w h g).cfg = narrowConfig desktopConfig w h) ∨
    (480 < w ∧ (resizeCanvas w h g).cfg = desktopConfig) := by
  unfold resizeCanvas
  by_cases hw : w ≤ 480
  · left
    refine ⟨hw, ?_⟩
    simp only [if_pos hw]
    rcases hg with hg | ⟨w0, h0, -, hg⟩
    · rw [hg]
    · rw [hg]
      rfl
  · right
    refine ⟨not_le.mp hw, ?_⟩
    simp only [if_neg hw]
    rcases hg with hg | ⟨w0, h0, -, hg⟩
    · rw [hg]
      rfl
    · rw [hg]
      rfl

theorem spawnStep_pipes (r : ℚ) (g : Game) :
    (spawnStep r g).pipes = g.pipes ∨ (spawnStep r g).pipes = g.pipes ++ [spawnPipe g.cfg r] := by
  unfold spawnStep
  split_ifs
  · exact Or.inr rfl
  · exact Or.inl rfl

/-- C5 fails as stated: in the narrow profile with a viewport 300 pixels high
the upper bound `CANVAS_HEIGHT - PIPE_GAP - 80` is 60, below the lower bound 80,
and the draw `r = 0` gives `topHeight = 80`. -/
theorem spawnPipe_bounds_counterexample :
    ¬ (∀ (cfg : Config) (w h : Nat) (r : ℚ),
        (cfg = desktopConfig ∨ (w ≤ 480 ∧ cfg = narrowConfig desktopConfig w h)) →
        0 ≤ r → r < 1 →
        (80 ≤ (spawnPipe cfg r).topHeight ∧
          (spawnPipe cfg r).topHeight ≤ cfg.CANVAS_HEIGHT - cfg.PIPE_GAP - 80) ∧
        (spawnPipe cfg r).bottomY = (spawnPipe cfg r).topHeight + cfg.PIPE_GAP) := by
  intro h
  have h1 := (h (narrowConfig desktopConfig 400 300) 400 300 0
    (Or.inr ⟨by decide, rfl⟩) (le_refl 0) (by norm_num)).1.2
  revert h1
  decide!

/-- C5, amended: the pipe spawned by `updatePipes` always has
`bottomY = topHeight + PIPE_GAP`; and in the desktop profile, or in the narrow
profile with a viewport at least 320 pixels high, for every draw `r` in `[0, 1)`
its `topHeight` lies in `[80, CANVAS_HEIGHT - PIPE_GAP - 80]`. -/
theorem spawnPipe_bounds (cfg : Config) (w h : Nat) (r : ℚ) :
    (spawnPipe cfg r).bottomY = (spawnPipe cfg r).topHeight + cfg.PIPE_GAP ∧
    ((cfg = desktopConfig ∨ (w ≤ 480 ∧ 320 ≤ h ∧ cfg = narrowConfig desktopConfig w h)) →
      0 ≤ r → r < 1 →
      80 ≤ (spawnPipe cfg r).topHeight ∧
        (spawnPipe cfg r).topHeight ≤ cfg.CANVAS_HEIGHT - cfg.PIPE_GAP - 80) := by
  refine ⟨rfl, ?_⟩
  intro hcfg h0 h1
  rcases hcfg with hcfg | ⟨-, hh, hcfg⟩
  · subst hcfg
    simp only [spawnPipe, desktopConfig]
    constructor <;> nlinarith
  · subst hcfg
    have hq : (320 : ℚ) ≤ (h : ℚ) := by exact_mod_cast hh
    simp only [spawnPipe, narrowConfig, desktopConfig]
    constructor <;> nlinarith

/-- C5, amended, at concrete inputs: the narrow profile at 400 by 700 pixels
with the draw `r = 1/2`. -/
theorem spawnPipe_bounds_witness :
    80 ≤ (spawnPipe (narrowConfig desktopConfig 400 700) (1/2)).topHeight ∧
    (spawnPipe (narrowConfig desktopConfig 400 700) (1/2)).topHeight ≤
      (narrowConfig desktopConfig 400 700).CANVAS_HEIGHT -
        (narrowConfig desktopConfig 400 700).PIPE_GAP - 80 :=
  (spawnPipe_bounds (narrowConfig desktopConfig 400 700) 400 700 (1/2)).2
    (Or.inr ⟨by decide, by decide, rfl⟩) (by norm_num) (by norm_num)

/-! ## Particles -/

theorem updateParticles_particles_spec (g : Game) :
    (updateParticles g).particles = updateParticlesSpec g.particles := by
  rw [updateParticles_particles, List.filter_map]
  unfold updateParticlesSpec
  congr 1
  congr 1
  funext q
  simp only [Function.comp, advanceParticle, not_le, sub_pos, gt_iff_lt]

/-- C6: the particle list after `updateParticles` is exactly the particles whose
life was greater than 1, in their order, each advanced by its velocity and with
life decreased by 1 (the splice loop equals the filter-and-map pass
`updateParticlesSpec`); no remaining particle has `life ≤ 0`, and nothing else
in the game changes. -/
theorem updateParticles_eq_spec (g : Game) :
    (updateParticles g).particles = updateParticlesSpec g.particles ∧
    (∀ q ∈ (updateParticles g).particles, ¬ q.life ≤ 0) ∧
    updateParticles g = { g with particles := updateParticlesSpec g.particles } := by
  refine ⟨updateParticles_particles_spec g, ?_, ?_⟩
  · intro q hq
    rw [updateParticles_particles] at hq
    have := (List.mem_filter.mp hq).2
    simpa using this
  · show ({ g with particles := (updateParticles g).particles } : Game) = _
    rw [updateParticles_particles_spec g]

/-- C6 at a concrete list: of a particle with life 1 and a particle with life 25
only the second remains, moved by its velocity and with life 24. -/
theorem updateParticles_eq_spec_witness :
    (updateParticles { freshRun with particles :=
        [{ x := 0, y := 0, vx := 1, vy := 2, life := 1, maxLife := 25 },
         { x := 110, y := 210, vx := -2, vy := 1, life := 25, maxLife := 25 }] }).particles =
      [{ x := 108, y := 211, vx := -2, vy := 1, life := 24, maxLife := 25 }] ∧
    ¬ ({ x := 108, y := 211, vx := -2, vy := 1, life := 24, maxLife := 25 } : Particle).life ≤ 0 :=
  ⟨(updateParticles_eq_spec _).1.trans (by decide!),
    (updateParticles_eq_spec { freshRun with particles :=
        [{ x := 0, y := 0, vx := 1, vy := 2, life := 1, maxLife := 25 },
         { x := 110, y := 210, vx := -2, vy := 1, life := 25, maxLife := 25 }] }).2.1 _
      (by decide!)⟩

/-! ## A run without input -/

theorem updateBird_frame (g : Game) :
    (updateBird g).cfg = g.cfg ∧ (updateBird g).frameCount = g.frameCount ∧
    (updateBird g).pipes = g.pipes ∧ (updateBird g).particles = g.particles ∧
    (updateBird g).score = g.score ∧ (updateBird g).bird.x = g.bird.x ∧
    (updateBird g).bird.size = g.bird.size := by
  unfold updateBird gameOver
  simp only []
  split_ifs <;> exact ⟨rfl, rfl, rfl, rfl, rfl, rfl, rfl⟩

theorem updatePipes_nil (r : ℚ) (g : Game) (hp : g.pipes = []) (hf : g.frameCount ≤ 0) :
    updatePipes r g = g := by
  unfold updatePipes
  split_ifs with h
  · rfl
  · have hs : spawnStep r g = g := by
      unfold spawnStep
      rw [if_neg]
      intro hc
      exact absurd hc.1 (not_lt.mpr hf)
    simp only [hs, hp, List.length_nil, pipesLoop]

theorem updateParticles_nil (g : Game) (hp : g.particles = []) : updateParticles g = g := by
  unfold updateParticles
  rw [hp]
  show ({ g with particles := [] } : Game) = g
  rw [← hp]

theorem tick_not_playing (r : ℚ) (g : Game) (h : g.gameState ≠ .Playing) :
    tick r g = updateParticles { g with frameCount := g.frameCount + 1 } := by
  unfold tick
  have h1 : updateBird { g with frameCount := g.frameCount + 1 } =
      { g with frameCount := g.frameCount + 1 } := by
    unfold updateBird
    rw [if_pos h]
  have h2 : updatePipes r { g with frameCount := g.frameCount + 1 } =
      { g with frameCount := g.frameCount + 1 } := by
    unfold updatePipes
    rw [if_pos h]
  rw [h1, h2]

theorem tick_no_pipes (r : ℚ) (g : Game) (hp : g.pipes = []) (hf : g.frameCount + 1 ≤ 0) :
    tick r g = updateParticles (updateBird { g with frameCount := g.frameCount + 1 }) := by
  unfold tick
  obtain ⟨-, h2, h3, -, -, -, -⟩ := updateBird_frame { g with frameCount := g.frameCount + 1 }
  rw [updatePipes_nil r _ (h3.trans hp) (h2.trans_le hf)]

theorem updateBird_withBest (b : Nat) (x : ℚ) (s : Game) (hs : s.score = 0) :
    updateBird (withBestAndX b x s) = withBestAndX b x (updateBird s) := by
  unfold withBestAndX updateBird gameOver
  simp only [hs]
  split_ifs <;> first | rfl | simp_all

theorem ticks_no_pipes (rs : Nat → ℚ) (s : Game) (hp : s.pipes = []) (hq : s.particles = [])
    (n : Nat) (hn : s.frameCount + n ≤ 0) :
    (ticks rs n s).pipes = [] ∧ (ticks rs n s).particles = [] ∧
    (ticks rs n s).score = s.score ∧ (ticks rs n s).frameCount = s.frameCount + n := by
  induction n with
  | zero => exact ⟨hp, hq, rfl, by simp [ticks]⟩
  | succ n ih =>
    have hn1 : s.frameCount + (n : Int) + 1 ≤ 0 := by push_cast at hn; linarith
    obtain ⟨h1, h2, h3, h4⟩ := ih (by linarith)
    obtain ⟨-, b2, b3, b4, b5, -, -⟩ :=
      updateBird_frame { ticks rs n s with frameCount := (ticks rs n s).frameCount + 1 }
    have ht : ticks rs (n + 1) s =
        updateBird { ticks rs n s with frameCount := (ticks rs n s).frameCount + 1 } := by
      show tick (rs n) (ticks rs n s) = _
      rw [tick_no_pipes (rs n) _ h1 (by rw [h4]; exact hn1),
        updateParticles_nil _ (b4.trans h2)]
    rw [ht]
    refine ⟨b3.trans h1, b4.trans h2, b5.trans h3, b2.trans ?_⟩
    show (ticks rs n s).frameCount + 1 = _
    rw [h4]; push_cast; ring

theorem ticks_withBestAndX (rs rs0 : Nat → ℚ) (b : Nat) (x : ℚ) (s : Game)
    (hp : s.pipes = []) (hq : s.particles = []) (hs : s.score = 0) (n : Nat)
    (hn : s.frameCount + n ≤ 0) :
    ticks rs n (withBestAndX b x s) = withBestAndX b x (ticks rs0 n s) := by
  induction n with
  | zero => rfl
  | succ n ih =>
    have hn1 : s.frameCount + (n : Int) + 1 ≤ 0 := by push_cast at hn; linarith
    have ih1 := ih (by linarith)
    obtain ⟨h1, h2, h3, h4⟩ := ticks_no_pipes rs0 s hp hq n (by linarith)
    obtain ⟨-, -, -, b4, -, -, -⟩ :=
      updateBird_frame { ticks rs0 n s with frameCount := (ticks rs0 n s).frameCount + 1 }
    show tick (rs n) (ticks rs n (withBestAndX b x s)) =
      withBestAndX b x (tick (rs0 n) (ticks rs0 n s))
    rw [ih1, tick_no_pipes (rs0 n) _ h1 (by rw [h4]; exact hn1),
      updateParticles_nil _ (b4.trans h2),
      tick_no_pipes (rs n) (withBestAndX b x (ticks rs0 n s)) h1 (by
        show (ticks rs0 n s).frameCount + 1 ≤ 0
        rw [h4]; exact hn1)]
    have e : ({ withBestAndX b x (ticks rs0 n s) with
          frameCount := (withBestAndX b x (ticks rs0 n s)).frameCount + 1 } : Game) =
        withBestAndX b x
          { ticks rs0 n s with frameCount := (ticks rs0 n s).frameCount + 1 } := rfl
    rw [e, updateBird_withBest b x
      { ticks rs0 n s with frameCount := (ticks rs0 n s).frameCount + 1 } (h3.trans hs)]
    exact updateParticles_nil _ (b4.trans h2)

theorem startGame_eq_freshRun (g : Game) (hcfg : g.cfg = desktopConfig)
    (hsize : g.bird.size = 20) : startGame g = withBestAndX g.bestScore g.bird.x freshRun := by
  unfold startGame withBestAndX freshRun startGame initialGame
  rcases g with ⟨cfg, st, sc, best, fc, ⟨bx, by_, bv, bs⟩, ps, qs⟩
  simp only at hcfg hsize
  subst hcfg hsize
  rfl

theorem ticks_gameOver (rs : Nat → ℚ) (s : Game) (m : Nat)
    (h : (ticks rs m s).gameState = .GameOver) (hq : (ticks rs m s).particles = []) (n : Nat)
    (hn : m ≤ n) :
    (ticks rs n s).gameState = .GameOver ∧ (ticks rs n s).particles = [] ∧
    (ticks rs n s).bird = (ticks rs m s).bird ∧ (ticks rs n s).pipes = (ticks rs m s).pipes ∧
    (ticks rs n s).score = (ticks rs m s).score := by
  induction n, hn using Nat.le_induction with
  | base => exact ⟨h, hq, rfl, rfl, rfl⟩
  | succ n _ ih =>
    obtain ⟨h1, h2, h3, h4, h5⟩ := ih
    have ht : ticks rs (n + 1) s =
        { ticks rs n s with frameCount := (ticks rs n s).frameCount + 1 } := by
      show tick (rs n) (ticks rs n s) = _
      rw [tick_not_playing _ _ (by rw [h1]; decide)]
      exact updateParticles_nil _ h2
    rw [ht]
    exact ⟨h1, h2, h3, h4, h5⟩

theorem withBestAndX_proj (b : Nat) (x : ℚ) (s : Game) :
    (withBestAndX b x s).gameState = s.gameState ∧ (withBestAndX b x s).bird.y = s.bird.y ∧
    (withBestAndX b x s).bird.velocity = s.bird.velocity ∧
    (withBestAndX b x s).bird.size = s.bird.size ∧ (withBestAndX b x s).pipes = s.pipes ∧
    (withBestAndX b x s).particles = s.particles :=
  ⟨rfl, rfl, rfl, rfl, rfl, rfl⟩

theorem freshRun_fall :
    (∀ n, n < 40 → (ticks (fun _ => 0) n freshRun).gameState = .Playing ∧
      (ticks (fun _ => 0) n freshRun).bird.y + (ticks (fun _ => 0) n freshRun).bird.size < 370) ∧
    (ticks (fun _ => 0) 39 freshRun).bird.y = 695 / 2 ∧
    (ticks (fun _ => 0) 39 freshRun).bird.velocity = 5 ∧
    (ticks (fun _ => 0) 40 freshRun).gameState = .GameOver ∧
    (ticks (fun _ => 0) 40 freshRun).bird.y = 350 ∧
    (ticks (fun _ => 0) 40 freshRun).bird.velocity = 0 := by
  decide!

/-- C7: in the desktop configuration with a bird of size 20, a run started by
`startGame` and left without input stays in `Playing` with the bird above the
ground line `groundY = 370` for the first 39 ticks, reaches `y = 347.5` at
velocity 5 after tick 39, and ends on tick 40: from then on (so also after 200
ticks) `gameState` is `GameOver`, the bird rests at `y = 350` with velocity 0;
the pipe list is empty throughout. -/
theorem no_input_run_ends (g : Game) (rs : Nat → ℚ) (hcfg : g.cfg = desktopConfig)
    (hsize : g.bird.size = 20) :
    (∀ n, n < 40 → (ticks rs n (startGame g)).gameState = .Playing ∧
      (ticks rs n (startGame g)).bird.y + (ticks rs n (startGame g)).bird.size < 370) ∧
    ((ticks rs 39 (startGame g)).bird.y = 695 / 2 ∧
      (ticks rs 39 (startGame g)).bird.velocity = 5) ∧
    (∀ n, 40 ≤ n → (ticks rs n (startGame g)).gameState = .GameOver ∧
      (ticks rs n (startGame g)).bird.y = 350 ∧
      (ticks rs n (startGame g)).bird.velocity = 0) ∧
    (∀ n, (ticks rs n (startGame g)).pipes = []) := by
  have hsim : ∀ n, n ≤ 40 → ticks rs n (startGame g) =
      withBestAndX g.bestScore g.bird.x (ticks (fun _ => 0) n freshRun) := by
    intro n hn
    rw [startGame_eq_freshRun g hcfg hsize]
    refine ticks_withBestAndX rs (fun _ => 0) _ _ freshRun rfl rfl rfl n ?_
    show (-60 : Int) + n ≤ 0
    omega
  have hnil : ∀ n, n ≤ 40 → (ticks rs n (startGame g)).pipes = [] ∧
      (ticks rs n (startGame g)).particles = [] := by
    intro n hn
    obtain ⟨-, -, -, -, p5, p6⟩ :=
      withBestAndX_proj g.bestScore g.bird.x (ticks (fun _ => 0) n freshRun)
    rw [hsim n hn, p5, p6]
    obtain ⟨h1, h2, -, -⟩ := ticks_no_pipes (fun _ => 0) freshRun rfl rfl n (by
      show (-60 : Int) + n ≤ 0
      omega)
    exact ⟨h1, h2⟩
  obtain ⟨f1, f2, f3, f4, f5, f6⟩ := freshRun_fall
  have hover : (ticks rs 40 (startGame g)).gameState = .GameOver := by
    rw [hsim 40 (le_refl 40), (withBestAndX_proj _ _ _).1]; exact f4
  refine ⟨?_, ?_, ?_, ?_⟩
  · intro n hn
    obtain ⟨p1, p2, -, p4, -, -⟩ :=
      withBestAndX_proj g.bestScore g.bird.x (ticks (fun _ => 0) n freshRun)
    rw [hsim n (le_of_lt hn), p1, p2, p4]
    exact f1 n hn
  · obtain ⟨-, p2, p3, -, -, -⟩ :=
      withBestAndX_proj g.bestScore g.bird.x (ticks (fun _ => 0) 39 freshRun)
    rw [hsim 39 (by decide), p2, p3]
    exact ⟨f2, f3⟩
  · intro n hn
    obtain ⟨h1, -, h3, -, -⟩ :=
      ticks_gameOver rs (startGame g) 40 hover (hnil 40 (le_refl 40)).2 n hn
    obtain ⟨-, p2, p3, -, -, -⟩ :=
      withBestAndX_proj g.bestScore g.bird.x (ticks (fun _ => 0) 40 freshRun)
    rw [h1, h3, hsim 40 (le_refl 40), p2, p3]
    exact ⟨rfl, f5, f6⟩
  · intro n
    rcases Nat.le_total n 40 with hn | hn
    · exact (hnil n hn).1
    · obtain ⟨-, -, -, h4, -⟩ :=
        ticks_gameOver rs (startGame g) 40 hover (hnil 40 (le_refl 40)).2 n hn
      rw [h4]
      exact (hnil 40 (le_refl 40)).1

/-- C7 at a concrete input: the game as loaded, with every random draw 0. -/
theorem no_input_run_ends_witness :
    (initialGame 0).cfg = desktopConfig ∧ (initialGame 0).bird.size = 20 ∧
    (ticks (fun _ => 0) 39 (startGame (initialGame 0))).gameState = .Playing ∧
    (ticks (fun _ => 0) 200 (startGame (initialGame 0))).gameState = .GameOver ∧
    (ticks (fun _ => 0) 200 (startGame (initialGame 0))).bird.y = 350 ∧
    (ticks (fun _ => 0) 200 (startGame (initialGame 0))).bird.velocity = 0 ∧
    (ticks (fun _ => 0) 200 (startGame (initialGame 0))).pipes = [] :=
  ⟨rfl, rfl,
    ((no_input_run_ends (initialGame 0) (fun _ => 0) rfl rfl).1 39 (by decide)).1,
    ((no_input_run_ends (initialGame 0) (fun _ => 0) rfl rfl).2.2.1 200 (by decide)).1,
    ((no_input_run_ends (initialGame 0) (fun _ => 0) rfl rfl).2.2.1 200 (by decide)).2.1,
    ((no_input_run_ends (initialGame 0) (fun _ => 0) rfl rfl).2.2.1 200 (by decide)).2.2,
    (no_input_run_ends (initialGame 0) (fun _ => 0) rfl rfl).2.2.2 200⟩

/-! ## Starting a run -/

theorem step_keeps_no_pipes (e : Event) (s : Game) (k : Nat) (hp : s.pipes = [])
    (hlo : -60 ≤ s.frameCount) (hhi : s.frameCount + (frames [e] + k : Nat) ≤ 0) :
    (step s e).pipes = [] ∧ -60 ≤ (step s e).frameCount ∧
    (step s e).frameCount + (k : Int) ≤ 0 := by
  cases e with
  | frame r =>
    have hk : s.frameCount + 1 + (k : Int) ≤ 0 := by
      have : (frames [Event.frame r] + k : Nat) = k + 1 := by simp [frames]; omega
      rw [this] at hhi
      push_cast at hhi
      linarith
    have hk0 : (0 : Int) ≤ k := Int.ofNat_nonneg k
    obtain ⟨-, b2, b3, -, -, -, -⟩ :=
      updateBird_frame { s with frameCount := s.frameCount + 1 }
    show (tick r s).pipes = [] ∧ -60 ≤ (tick r s).frameCount ∧ (tick r s).frameCount + (k : Int) ≤ 0
    rw [tick_no_pipes r s hp (by linarith)]
    show (updateBird { s with frameCount := s.frameCount + 1 }).pipes = [] ∧
      -60 ≤ (updateBird { s with frameCount := s.frameCount + 1 }).frameCount ∧
      (updateBird { s with frameCount := s.frameCount + 1 }).frameCount + (k : Int) ≤ 0
    rw [b2, b3]
    exact ⟨hp, by show -60 ≤ s.frameCount + 1; linarith, hk⟩
  | input rnd =>
    have hk : s.frameCount + (k : Int) ≤ 0 := by
      have : (frames [Event.input rnd] + k : Nat) = k := by simp [frames]
      rw [this] at hhi
      exact hhi
    show (handleInput rnd s).pipes = [] ∧ -60 ≤ (handleInput rnd s).frameCount ∧
      (handleInput rnd s).frameCount + (k : Int) ≤ 0
    unfold handleInput
    split_ifs
    · refine ⟨rfl, le_refl _, ?_⟩
      show (-60 : Int) + k ≤ 0
      linarith
    · exact ⟨hp, hlo, hk⟩
    · exact ⟨hp, hlo, hk⟩
  | resize w h =>
    have hk : s.frameCount + (k : Int) ≤ 0 := by
      have : (frames [Event.resize w h] + k : Nat) = k := by simp [frames]
      rw [this] at hhi
      exact hhi
    exact ⟨hp, hlo, hk⟩
  | restart =>
    have hk : s.frameCount + (k : Int) ≤ 0 := by
      have : (frames [Event.restart] + k : Nat) = k := by simp [frames]
      rw [this] at hhi
      exact hhi
    exact ⟨hp, hlo, hk⟩

theorem frames_cons (e : Event) (evs : List Event) :
    frames (e :: evs) = frames [e] + frames evs := by
  cases e with
  | frame r => simp [frames]; omega
  | input rnd => simp [frames]
  | resize w h => simp [frames]
  | restart => simp [frames]

theorem run_keeps_no_pipes (evs : List Event) :
    ∀ s : Game, s.pipes = [] → -60 ≤ s.frameCount → s.frameCount + (frames evs : Nat) ≤ 0 →
      (run evs s).pipes = [] := by
  induction evs with
  | nil => intro s hp _ _; exact hp
  | cons e evs ih =>
    intro s hp hlo hhi
    rw [frames_cons] at hhi
    obtain ⟨h1, h2, h3⟩ := step_keeps_no_pipes e s (frames evs) hp hlo hhi
    exact ih (step s e) h1 h2 h3

/-- C8: from any prior state `startGame` yields `gameState = Playing`,
`score = 0`, `frameCount = -60`, empty pipe and particle lists, the bird at
`CANVAS_HEIGHT / 2` with velocity 0; and after any sequence of events (frames,
inputs, resizes, restarts) that holds at most 60 frames the pipe list is still
empty: no pipe is spawned during the first 60 ticks. -/
theorem startGame_resets_and_grace (g : Game) (evs : List Event) :
    ((startGame g).gameState = .Playing ∧ (startGame g).score = 0 ∧
      (startGame g).frameCount = -60 ∧ (startGame g).pipes = [] ∧
      (startGame g).particles = [] ∧ (startGame g).bird.y = g.cfg.CANVAS_HEIGHT / 2 ∧
      (startGame g).bird.velocity = 0 ∧ (startGame g).cfg = g.cfg) ∧
    (frames evs ≤ 60 → (run evs (startGame g)).pipes = []) := by
  refine ⟨⟨rfl, rfl, rfl, rfl, rfl, rfl, rfl, rfl⟩, ?_⟩
  intro h
  refine run_keeps_no_pipes evs (startGame g) rfl (le_refl _) ?_
  show (-60 : Int) + (frames evs : Nat) ≤ 0
  omega

/-- C8 at a concrete input: a frame, a flap, a frame, a resize to a narrow
viewport and another frame after `startGame` leave the pipe list empty. -/
theorem startGame_resets_and_grace_witness :
    frames [Event.frame 0, Event.input (fun _ => (0, 0)), Event.frame 0, Event.resize 400 700,
      Event.frame (1/2)] ≤ 60 ∧
    (run [Event.frame 0, Event.input (fun _ => (0, 0)), Event.frame 0, Event.resize 400 700,
      Event.frame (1/2)] (startGame (initialGame 0))).pipes = [] :=
  ⟨by decide, (startGame_resets_and_grace (initialGame 0) _).2 (by decide)⟩

/-! ## Ticks outside `Playing` -/

theorem tick_not_playing_frame (r : ℚ) (g : Game) (h : g.gameState ≠ .Playing) :
    (tick r g).bird = g.bird ∧ (tick r g).pipes = g.pipes ∧ (tick r g).score = g.score ∧
    (tick r g).bestScore = g.bestScore ∧ (tick r g).gameState = g.gameState ∧
    (tick r g).particles = updateParticlesSpec g.particles := by
  rw [tick_not_playing r g h]
  exact ⟨rfl, rfl, rfl, rfl, rfl,
    updateParticles_particles_spec { g with frameCount := g.frameCount + 1 }⟩

/-- C9 fails on the code: `updateParticles` has no `gameState` guard.  In the
state left by a flap followed by `gameOver`, one tick keeps the bird, the pipes
and the score but advances the five particles, whose life drops from 25 to 24. -/
theorem particles_move_after_gameOver :
    (gameOver (flap (fun _ => (0, 0)) freshRun)).gameState = .GameOver ∧
    (tick 0 (gameOver (flap (fun _ => (0, 0)) freshRun))).bird =
      (gameOver (flap (fun _ => (0, 0)) freshRun)).bird ∧
    (tick 0 (gameOver (flap (fun _ => (0, 0)) freshRun))).pipes =
      (gameOver (flap (fun _ => (0, 0)) freshRun)).pipes ∧
    (tick 0 (gameOver (flap (fun _ => (0, 0)) freshRun))).score =
      (gameOver (flap (fun _ => (0, 0)) freshRun)).score ∧
    (tick 0 (gameOver (flap (fun _ => (0, 0)) freshRun))).particles ≠
      (gameOver (flap (fun _ => (0, 0)) freshRun)).particles ∧
    (gameOver (flap (fun _ => (0, 0)) freshRun)).particles.map (fun p => p.life) =
      [25, 25, 25, 25, 25] ∧
    (tick 0 (gameOver (flap (fun _ => (0, 0)) freshRun))).particles.map (fun p => p.life) =
      [24, 24, 24, 24, 24] := by
  decide!

/-! ## Resizing -/

/-- C10: in any game state and for any viewport size `resizeCanvas` puts the
bird at the new `CANVAS_HEIGHT / 2` with velocity 0, writes the narrow profile
when `w ≤ 480` and the desktop profile otherwise, and leaves the score, the best
score, the game state, the frame counter, the pipe list and the particle list
(and the bird's `x` and `size`) unchanged. -/
theorem resizeCanvas_frame (w h : Nat) (g : Game) :
    ((resizeCanvas w h g).bird.y = (resizeCanvas w h g).cfg.CANVAS_HEIGHT / 2 ∧
      (resizeCanvas w h g).bird.velocity = 0) ∧
    ((resizeCanvas w h g).cfg.CANVAS_WIDTH = (if w ≤ 480 then (w : ℚ) else 800) ∧
      (resizeCanvas w h g).cfg.CANVAS_HEIGHT = (if w ≤ 480 then (h : ℚ) else 400) ∧
      (resizeCanvas w h g).cfg.GRAVITY = (if w ≤ 480 then 1/5 else 1/4) ∧
      (resizeCanvas w h g).cfg.FLAP_STRENGTH = (if w ≤ 480 then -5 else -6) ∧
      (resizeCanvas w h g).cfg.PIPE_GAP = (if w ≤ 480 then 160 else 140) ∧
      (resizeCanvas w h g).cfg.PIPE_SPEED = (if w ≤ 480 then 6/5 else 3/2) ∧
      (resizeCanvas w h g).cfg.BIRD_SIZE = g.cfg.BIRD_SIZE ∧
      (resizeCanvas w h g).cfg.BIRD_X = g.cfg.BIRD_X ∧
      (resizeCanvas w h g).cfg.PIPE_WIDTH = g.cfg.PIPE_WIDTH ∧
      (resizeCanvas w h g).cfg.PIPE_SPAWN_RATE = g.cfg.PIPE_SPAWN_RATE) ∧
    ((resizeCanvas w h g).score = g.score ∧ (resizeCanvas w h g).bestScore = g.bestScore ∧
      (resizeCanvas w h g).gameState = g.gameState ∧
      (resizeCanvas w h g).frameCount = g.frameCount ∧
      (resizeCanvas w h g).pipes = g.pipes ∧ (resizeCanvas w h g).particles = g.particles ∧
      (resizeCanvas w h g).bird.x = g.bird.x ∧ (resizeCanvas w h g).bird.size = g.bird.size) := by
  refine ⟨⟨rfl, rfl⟩, ?_, ⟨rfl, rfl, rfl, rfl, rfl, rfl, rfl, rfl⟩⟩
  unfold resizeCanvas narrowConfig
  by_cases hw : w ≤ 480
  · simp only [if_pos hw, and_self]
  · simp only [if_neg hw, and_self]

/-! ## Primary input -/

theorem flap_particles (rnd : Nat → ℚ × ℚ) (g : Game) :
    (flap rnd g).particles = g.particles ++
      [flapParticle (flap rnd g).bird (rnd 0).1 (rnd 0).2,
       flapParticle (flap rnd g).bird (rnd 1).1 (rnd 1).2,
       flapParticle (flap rnd g).bird (rnd 2).1 (rnd 2).2,
       flapParticle (flap rnd g).bird (rnd 3).1 (rnd 3).2,
       flapParticle (flap rnd g).bird (rnd 4).1 (rnd 4).2] :=
  rfl

theorem handleInput_playing (rnd : Nat → ℚ × ℚ) (g : Game) (h : g.gameState = .Playing) :
    handleInput rnd g = flap rnd g := by
  unfold handleInput
  rw [if_neg (by rw [h]; decide), if_pos h]

theorem handleInput_gameOver (rnd : Nat → ℚ × ℚ) (g : Game) (h : g.gameState = .GameOver) :
    handleInput rnd g = g := by
  unfold handleInput
  rw [if_neg (by rw [h]; decide), if_neg (by rw [h]; decide)]

/-- C11: for every prior bird velocity a primary input in `Playing` sets
`bird.velocity` to exactly `FLAP_STRENGTH` (which is -6 in the desktop profile),
whatever the velocity was before, and appends exactly 5 particles to the
particle list, each with `life = maxLife = 25`, placed at the bird's centre with
the drawn velocities; the bird's position and size, the pipes, the counters,
the configuration and the game state stay as they were.  A primary input in
`GameOver` changes nothing. -/
theorem handleInput_flap (rnd : Nat → ℚ × ℚ) (g : Game) :
    (g.gameState = .Playing →
      (handleInput rnd g).bird.velocity = g.cfg.FLAP_STRENGTH ∧
      (handleInput rnd g).particles.length = g.particles.length + 5 ∧
      (handleInput rnd g).particles.take g.particles.length = g.particles ∧
      (∀ q ∈ (handleInput rnd g).particles.drop g.particles.length,
        q.life = 25 ∧ q.maxLife = 25) ∧
      (∀ i, i < 5 → (handleInput rnd g).particles[g.particles.length + i]? =
        some { x := g.bird.x + g.bird.size / 2, y := g.bird.y + g.bird.size / 2,
               vx := ((rnd i).1 - 1/2) * 4, vy := (rnd i).2 * 3 + 1,
               life := 25, maxLife := 25 }) ∧
      ((handleInput rnd g).bird.x = g.bird.x ∧ (handleInput rnd g).bird.y = g.bird.y ∧
        (handleInput rnd g).bird.size = g.bird.size ∧ (handleInput rnd g).pipes = g.pipes ∧
        (handleInput rnd g).score = g.score ∧ (handleInput rnd g).bestScore = g.bestScore ∧
        (handleInput rnd g).frameCount = g.frameCount ∧ (handleInput rnd g).cfg = g.cfg ∧
        (handleInput rnd g).gameState = .Playing)) ∧
    desktopConfig.FLAP_STRENGTH = -6 ∧
    (g.gameState = .GameOver → handleInput rnd g = g) := by
  refine ⟨?_, rfl, handleInput_gameOver rnd g⟩
  intro h
  rw [handleInput_playing rnd g h]
  refine ⟨rfl, ?_, ?_, ?_, ?_, ⟨rfl, rfl, rfl, rfl, rfl, rfl, rfl, rfl, h⟩⟩
  · rw [flap_particles, List.length_append]
    rfl
  · rw [flap_particles, List.take_left]
  · intro q hq
    rw [flap_particles, List.drop_left] at hq
    simp only [List.mem_cons, List.mem_singleton, List.not_mem_nil, or_false] at hq
    rcases hq with hq | hq | hq | hq | hq <;> rw [hq] <;> exact ⟨rfl, rfl⟩
  · intro i hi
    rw [flap_particles, List.getElem?_append_right (Nat.le_add_right _ _),
      Nat.add_sub_cancel_left]
    interval_cases i <;> rfl

/-- C11 at concrete states: a flap turns a falling velocity of 5 into -6 in the
desktop profile, and an input after the run has ended changes nothing. -/
theorem handleInput_flap_witness :
    ({ freshRun with bird := { x := 100, y := 200, velocity := 5, size := 20 } } : Game).gameState
      = .Playing ∧
    (handleInput (fun _ => (1/2, 0))
      { freshRun with bird := { x := 100, y := 200, velocity := 5, size := 20 } }).bird.velocity
      = -6 ∧
    (gameOver freshRun).gameState = .GameOver ∧
    handleInput (fun _ => (1/2, 0)) (gameOver freshRun) = gameOver freshRun :=
  ⟨rfl,
    ((handleInput_flap (fun _ => (1/2, 0))
      { freshRun with bird := { x := 100, y := 200, velocity := 5, size := 20 } }).1 rfl).1,
    rfl,
    (handleInput_flap (fun _ => (1/2, 0)) (gameOver freshRun)).2.2 rfl⟩

end FlappyBird
